import Mathlib

/-!
Shallow embedding of the execution service (src/execution/service.go) and the
rootfs chain-id utility (src/rootfs/chainid.go) of this containerd fork,
together with theorems settling the frozen claims about them.

Go slices become Lean lists, Go (value, error) returns become pairs of
Option/Except values, and the executor (an external collaborator) becomes a
record of deterministic response functions.  Out-of-bounds slice indexing
(a Go runtime panic) is modelled by Option with none for the panic.
-/

namespace Svc

/-- Error values of the service.  `errProcessNotFound` embeds the package's
shared ErrProcessNotFound sentinel (declared outside src, referenced at
service.go:200); `errorf` embeds an ad hoc fmt.Errorf value identified by its
format string; `execFailure` embeds an opaque error surfaced by the executor. -/
inductive GoError where
  | errProcessNotFound : GoError
  | errorf (msg : String) : GoError
  | execFailure (msg : String) : GoError
deriving DecidableEq, Repr

/-- Modelled from the spec: the internal lifecycle status vocabulary.  The
constants are declared in the execution package outside src; toGRPCContainer
(service.go:283) switches on the lowercase strings, so statuses are strings. -/
def Created : String := "created"

/-- Modelled from the spec: internal status Running. -/
def Running : String := "running"

/-- Modelled from the spec: internal status Stopped. -/
def Stopped : String := "stopped"

/-- Modelled from the spec: internal status Paused. -/
def Paused : String := "paused"

/-- Modelled from the spec: internal status Deleted. -/
def Deleted : String := "deleted"

/-- Modelled from the spec: the reserved Unknown status code sentinel
substituted when Wait fails during recovery reaping (constant declared in the
package outside src); its concrete value is the max uint32. -/
def UnknownStatusCode : Nat := 4294967295

/-- Modelled from the spec: a Process as the executor reports it.  `wait`
records the deterministic outcome of Wait() for this process (status code or
error); `signalRes` records the outcome of Signal (nil on success). -/
structure Process where
  ID : String
  pid : Nat
  status : String
  wait : Except GoError Nat
  signalRes : Option GoError
deriving Repr

/-- Modelled from the spec: a Container as the executor reports it.
`processes` is the stored ordered sequence backing both the Processes()
accessor and the lowercase `processes` field read at service.go:37; element 0
is the init process. -/
structure Container where
  ID : String
  bundle : String
  status : String
  processes : List Process
deriving Repr

/-- Modelled from the spec: Container.GetProcess looks a process up by its ID
(unique within the container); method declared outside src, called at
service.go:198 and 212. -/
def Container.GetProcess (c : Container) (pid : String) : Option Process :=
  c.processes.find? (fun p => p.ID == pid)

/-- Modelled from the spec: the process-level event topic, a pure function of
the two IDs shaped containers.<ID>.processes.<ProcessID> (the format constant
is declared outside src; service.go:272). -/
def GetContainerProcessEventTopic (containerID processID : String) : String :=
  "containers." ++ containerID ++ ".processes." ++ processID

/-- A published ContainerExitEvent together with the topic it was posted to
(service.go:47 and 255).  The Timestamp field is wall-clock time and is not
modelled. -/
structure ContainerExitEvent where
  topic : String
  containerID : String
  action : String
  pid : String
  statusCode : Nat
deriving DecidableEq, Repr

/-- Embedding of monitorProcess (service.go:250-266): the single asynchronous
watch task calls Wait(); on success it publishes exactly one exit event with
the process's ID and the returned status code, on error it publishes nothing. -/
def monitorEvent (c : Container) (p : Process) : Option ContainerExitEvent :=
  match p.wait with
  | .ok status =>
      some { topic := GetContainerProcessEventTopic c.ID p.ID
           , containerID := c.ID
           , action := "exit"
           , pid := p.ID
           , statusCode := status }
  | .error _ => none

/-- The status code recovery publishes for a reaped process
(service.go:42-45): the Wait() result, or UnknownStatusCode when Wait errs. -/
def waitStatusCode (p : Process) : Nat :=
  match p.wait with
  | .ok sc => sc
  | .error _ => UnknownStatusCode

/-- The exit event published synchronously for one process of a dead container
during boot recovery (service.go:46-55). -/
def reapEvent (c : Container) (p : Process) : ContainerExitEvent :=
  { topic := GetContainerProcessEventTopic c.ID p.ID
  , containerID := c.ID
  , action := "exit"
  , pid := p.ID
  , statusCode := waitStatusCode p }

/-- Whether a container's aggregate status selects the synchronous reaping
branch of recovery (service.go:38). -/
def isDeadStatus (s : String) : Bool :=
  s == Stopped || s == Deleted

/-- Events published while recovering one container (service.go:37-59): when
the aggregate status is Stopped or Deleted, the loop iterates the stored
field c.processes in its stored order (NOT the reordered local slice computed
at line 36, which is never read) and publishes one event per process; other
containers publish nothing synchronously. -/
def containerRecoveryEvents (c : Container) : List ContainerExitEvent :=
  if isDeadStatus c.status then c.processes.map (reapEvent c) else []

/-- Monitors armed while recovering one container (service.go:56-58), as
(containerID, processID) pairs: one per stored process when the container is
not Stopped or Deleted. -/
def containerRecoveryMonitors (c : Container) : List (String × String) :=
  if isDeadStatus c.status then [] else c.processes.map (fun p => (c.ID, p.ID))

/-- service.go:35-36 — processes := c.Processes(); append(processes[1:],
processes[0]).  Indexing element 0 of an empty sequence is out of bounds, a
runtime panic, modelled as none.  The resulting reordered slice is bound but
never used afterwards. -/
def reorderProcesses : List Process → Option (List Process)
  | [] => none
  | p :: rest => some (rest ++ [p])

/-- The synchronous output of boot recovery: the exit events published and the
monitors re-armed, in order. -/
structure RecoveryOutcome where
  events : List ContainerExitEvent
  monitors : List (String × String)
deriving DecidableEq, Repr

/-- The per-container recovery loop of New (service.go:32-60).  For each
container the dead reorder at line 36 is still evaluated (so an empty process
sequence panics, modelled as none), then the loop over c.processes either
reaps or re-arms. -/
def recoverContainers : List Container → Option RecoveryOutcome
  | [] => some ⟨[], []⟩
  | c :: cs =>
    match reorderProcesses c.processes with
    | none => none
    | some _ =>
      match recoverContainers cs with
      | none => none
      | some r =>
          some ⟨containerRecoveryEvents c ++ r.events,
                containerRecoveryMonitors c ++ r.monitors⟩

/-- New (service.go:20-63) given the outcome of the initial executor.List
call: a List failure is returned as the service's own error (lines 27-30);
otherwise recovery runs (inner none models a panic, which is not an error
return). -/
def new (listRes : Except GoError (List Container)) :
    Except GoError (Option RecoveryOutcome) :=
  match listRes with
  | .error e => .error e
  | .ok cs => .ok (recoverContainers cs)

/-! ### The RPC facade -/

/-- CreateOpts passed to the executor (service.go:72-78). -/
structure CreateOpts where
  Bundle : String
  Console : String
  Stdin : String
  Stdout : String
  Stderr : String
deriving DecidableEq, Repr

/-- The OCI console geometry box (specs.Box). -/
structure Box where
  Height : Nat
  Width : Nat
deriving DecidableEq, Repr

/-- The OCI process spec fields populated at service.go:161-171. -/
structure OciProcessSpec where
  Terminal : Bool
  ConsoleSize : Box
  Args : List String
  Env : List String
  Cwd : String
  NoNewPrivileges : Bool
deriving DecidableEq, Repr

/-- StartProcessOpts passed to the executor (service.go:173-180). -/
structure StartProcessOpts where
  ID : String
  procSpec : OciProcessSpec
  Console : String
  Stdin : String
  Stdout : String
  Stderr : String
deriving DecidableEq, Repr

/-- Modelled from the spec: the executor contract, as a record of the
deterministic responses it gives the facade during the run under study.  The
executor itself is an external collaborator and is not in src. -/
structure Executor where
  listRes : Except GoError (List Container)
  loadRes : String → Except GoError Container
  createRes : String → CreateOpts → Except GoError Container
  deleteRes : Container → Option GoError
  startRes : Container → Option GoError
  pauseRes : Container → Option GoError
  resumeRes : Container → Option GoError
  startProcessRes : Container → StartProcessOpts → Except GoError Process
  deleteProcessRes : Container → String → Option GoError

/-- Wire status enum of the api package (not in src); modelled from the spec,
which fixes a zero value distinct from the four mapped values. -/
inductive WireStatus where
  | UNKNOWN : WireStatus
  | CREATED : WireStatus
  | RUNNING : WireStatus
  | STOPPED : WireStatus
  | PAUSED : WireStatus
deriving DecidableEq, Repr

/-- Modelled from the spec: the zero value of the wire status enum, the value
a freshly initialized api.Container carries before the switch assigns one. -/
def WireStatus.zero : WireStatus := .UNKNOWN

/-- Wire-level container (api.Container) with the fields service.go:277-280
populates. -/
structure ApiContainer where
  ID : String
  BundlePath : String
  Status : WireStatus
deriving DecidableEq, Repr

/-- Wire-level process (api.Process) with the fields service.go:305-308
populates. -/
structure ApiProcess where
  ID : String
  Pid : Nat
deriving DecidableEq, Repr

/-- toGRPCContainer (service.go:276-294): build the wire container with the
status field at its zero value, then the switch assigns a mapped value for
exactly the four known internal statuses and touches nothing otherwise. -/
def toGRPCContainer (c : Container) : ApiContainer :=
  let base : ApiContainer :=
    { ID := c.ID, BundlePath := c.bundle, Status := WireStatus.zero }
  match c.status with
  | "created" => { base with Status := .CREATED }
  | "running" => { base with Status := .RUNNING }
  | "stopped" => { base with Status := .STOPPED }
  | "paused" => { base with Status := .PAUSED }
  | _ => base

/-- toGRPCProcess (service.go:304-309). -/
def toGRPCProcess (p : Process) : ApiProcess :=
  { ID := p.ID, Pid := p.pid }

/-- toGRPCProcesses (service.go:296-302). -/
def toGRPCProcesses (ps : List Process) : List ApiProcess :=
  ps.map toGRPCProcess

/-- Result of an RPC handler that can also panic (out-of-bounds indexing):
either a panic, or a returned (payload, error) pair where a none payload is a
nil pointer on the wire. -/
inductive RpcResult (α : Type) where
  | panic : RpcResult α
  | ret (payload : Option α) (err : Option GoError) : RpcResult α
deriving DecidableEq, Repr

structure CreateContainerRequest where
  ID : String
  BundlePath : String
  Console : String
  Stdin : String
  Stdout : String
  Stderr : String
deriving DecidableEq, Repr

structure CreateContainerResponse where
  Container : ApiContainer
  InitProcess : ApiProcess
deriving DecidableEq, Repr

/-- Create (service.go:69-92): surface the executor error with a nil payload,
otherwise index procs[0] (panic on an empty sequence), arm monitoring for the
init process (not part of the returned value) and answer with the wire
snapshots. -/
def create (x : Executor) (r : CreateContainerRequest) :
    RpcResult CreateContainerResponse :=
  match x.createRes r.ID ⟨r.BundlePath, r.Console, r.Stdin, r.Stdout, r.Stderr⟩ with
  | .error e => .ret none (some e)
  | .ok c =>
    match c.processes.head? with
    | none => .panic
    | some initProcess =>
        .ret (some ⟨toGRPCContainer c, toGRPCProcess initProcess⟩) none

/-- Delete (service.go:94-104): every return path carries the emptyResponse
payload. -/
def delete (x : Executor) (id : String) : Option Unit × Option GoError :=
  match x.loadRes id with
  | .error e => (some (), some e)
  | .ok c =>
    match x.deleteRes c with
    | some e => (some (), some e)
    | none => (some (), none)

/-- List (service.go:106-116): nil payload on executor error. -/
def listContainers (x : Executor) :
    Option (List ApiContainer) × Option GoError :=
  match x.listRes with
  | .error e => (none, some e)
  | .ok cs => (some (cs.map toGRPCContainer), none)

/-- Get (service.go:117-125): nil payload on load error. -/
def get (x : Executor) (id : String) : Option ApiContainer × Option GoError :=
  match x.loadRes id with
  | .error e => (none, some e)
  | .ok c => (some (toGRPCContainer c), none)

/-- Update (service.go:127-129): a no-op reporting success. -/
def update (_x : Executor) (_id : String) : Option Unit × Option GoError :=
  (some (), none)

/-- Pause (service.go:131-137): NOTE the load-failure path returns nil, err
(line 134), while the success path returns emptyResponse alongside whatever
the executor.Pause call yields. -/
def pause (x : Executor) (id : String) : Option Unit × Option GoError :=
  match x.loadRes id with
  | .error e => (none, some e)
  | .ok c => (some (), x.pauseRes c)

/-- Resume (service.go:139-145): same shape as Pause. -/
def resume (x : Executor) (id : String) : Option Unit × Option GoError :=
  match x.loadRes id with
  | .error e => (none, some e)
  | .ok c => (some (), x.resumeRes c)

/-- Start (service.go:147-153): same shape as Pause. -/
def start (x : Executor) (id : String) : Option Unit × Option GoError :=
  match x.loadRes id with
  | .error e => (none, some e)
  | .ok c => (some (), x.startRes c)

/-- The fields of StartProcessRequest.Process the handler reads
(service.go:162-169). -/
structure ProcessConfig where
  ID : String
  Terminal : Bool
  Args : List String
  Env : List String
  Cwd : String
deriving DecidableEq, Repr

structure StartProcessRequest where
  ContainerID : String
  procConfig : ProcessConfig
  Console : String
  Stdin : String
  Stdout : String
  Stderr : String
deriving DecidableEq, Repr

/-- The OCI process spec StartProcess builds (service.go:161-171): terminal
flag, args, env and cwd come from the request, the console geometry is the
fixed 80x80 default and NoNewPrivileges is forced on. -/
def startProcessSpec (p : ProcessConfig) : OciProcessSpec :=
  { Terminal := p.Terminal
  , ConsoleSize := { Height := 80, Width := 80 }
  , Args := p.Args
  , Env := p.Env
  , Cwd := p.Cwd
  , NoNewPrivileges := true }

/-- The StartProcessOpts StartProcess passes to the executor
(service.go:173-180). -/
def startProcessOptsOf (r : StartProcessRequest) : StartProcessOpts :=
  { ID := r.procConfig.ID
  , procSpec := startProcessSpec r.procConfig
  , Console := r.Console
  , Stdin := r.Stdin
  , Stdout := r.Stdout
  , Stderr := r.Stderr }

/-- StartProcess (service.go:155-190): nil payload on load or executor error;
on success the new process is wired into monitoring (not part of the returned
value) and its wire snapshot is returned. -/
def startProcess (x : Executor) (r : StartProcessRequest) :
    Option ApiProcess × Option GoError :=
  match x.loadRes r.ContainerID with
  | .error e => (none, some e)
  | .ok c =>
    match x.startProcessRes c (startProcessOptsOf r) with
    | .error e => (none, some e)
    | .ok p => (some (toGRPCProcess p), none)

/-- GetProcess (service.go:193-205): nil payload on load error; the shared
ErrProcessNotFound sentinel (line 200) with nil payload when the process ID
is unmatched. -/
def getProcess (x : Executor) (cid pid : String) :
    Option ApiProcess × Option GoError :=
  match x.loadRes cid with
  | .error e => (none, some e)
  | .ok c =>
    match c.GetProcess pid with
    | none => (none, some .errProcessNotFound)
    | some p => (some (toGRPCProcess p), none)

/-- SignalProcess (service.go:207-217): emptyResponse alongside a load error;
when the process ID is unmatched, a nil payload alongside the ad hoc
fmt.Errorf value of line 214 (NOT the shared sentinel); otherwise
emptyResponse alongside the Signal outcome. -/
def signalProcess (x : Executor) (cid pid : String) :
    Option Unit × Option GoError :=
  match x.loadRes cid with
  | .error e => (some (), some e)
  | .ok c =>
    match c.GetProcess pid with
    | none => (none, some (.errorf "Make me a constant! Process not foumd!"))
    | some p => (some (), p.signalRes)

/-- DeleteProcess (service.go:219-228): every return path carries the
emptyResponse payload; there is no process lookup — the ID goes straight to
the executor. -/
def deleteProcess (x : Executor) (cid pid : String) :
    Option Unit × Option GoError :=
  match x.loadRes cid with
  | .error e => (some (), some e)
  | .ok c =>
    match x.deleteProcessRes c pid with
    | some e => (some (), some e)
    | none => (some (), none)

/-- ListProcesses (service.go:230-239): nil payload on load error. -/
def listProcesses (x : Executor) (id : String) :
    Option (List ApiProcess) × Option GoError :=
  match x.loadRes id with
  | .error e => (none, some e)
  | .ok c => (some (toGRPCProcesses c.processes), none)

end Svc

namespace Rootfs

/-- ChainIDs (chainid.go:39-50), as the final content of the slice, which the
function also returns: fewer than two entries are returned unchanged;
otherwise entry 1 is overwritten in place with FromBytes(entry0 + " " +
entry1) and the recursion continues on the tail from entry 1.  The digest
function FromBytes lives in the external go-digest library, so it is a
parameter. -/
def ChainIDs (fromBytes : String → String) : List String → List String
  | [] => []
  | [a] => [a]
  | a :: b :: rest => a :: ChainIDs fromBytes (fromBytes (a ++ " " ++ b) :: rest)
termination_by l => l.length

/-- Go copy(dst, src) (chainid.go:15) as the resulting content of dst: the
first min(len dst, len src) elements of src followed by the untouched tail of
dst. -/
def goCopy (dst src : List String) : List String :=
  src.take (min dst.length src.length) ++ dst.drop (min dst.length src.length)

/-- ChainID (chainid.go:13-22): allocate a fresh slice of the same length,
copy the input into it, run ChainIDs on the copy (the input itself is never
written), then answer the empty digest for an empty slice and the last entry
otherwise. -/
def ChainID (fromBytes : String → String) (dgsts : List String) : String :=
  let chainIDs := goCopy (List.replicate dgsts.length "") dgsts
  let chainIDs := ChainIDs fromBytes chainIDs
  if chainIDs.isEmpty then "" else (chainIDs.getLast?).getD ""

end Rootfs

/-- A concrete executor fixture: Load always succeeds with a running container
named c that has no process named nope, the other calls give fixed answers. -/
def simpleExec : Svc.Executor :=
  { listRes := .ok []
  , loadRes := fun _ => .ok ⟨"c", "/b", "running", [⟨"p1", 3, "running", .ok 0, none⟩]⟩
  , createRes := fun _ _ => .error (.execFailure "e")
  , deleteRes := fun _ => none
  , startRes := fun _ => none
  , pauseRes := fun _ => none
  , resumeRes := fun _ => none
  , startProcessRes := fun _ _ => .error (.execFailure "e")
  , deleteProcessRes := fun _ _ => none }

/-- A concrete executor fixture whose Load always fails. -/
def loadFailExec : Svc.Executor :=
  { listRes := .ok []
  , loadRes := fun _ => .error (.execFailure "boom")
  , createRes := fun _ _ => .error (.execFailure "e")
  , deleteRes := fun _ => none
  , startRes := fun _ => none
  , pauseRes := fun _ => none
  , resumeRes := fun _ => none
  , startProcessRes := fun _ _ => .error (.execFailure "e")
  , deleteProcessRes := fun _ _ => none }

/-! ## Theorems settling the claims -/

/-- C4: for every process watched by a Process Monitor, a successful Wait()
publishes exactly one ContainerExitEvent carrying that process's ID and the
returned status code on the per-container-process topic, and a failed Wait()
publishes nothing. -/
theorem C4_monitor_exact_event (c : Svc.Container) (p : Svc.Process) :
    (∀ sc : Nat, p.wait = .ok sc →
      Svc.monitorEvent c p =
        some { topic := Svc.GetContainerProcessEventTopic c.ID p.ID
             , containerID := c.ID
             , action := "exit"
             , pid := p.ID
             , statusCode := sc }) ∧
    (∀ e : Svc.GoError, p.wait = .error e → Svc.monitorEvent c p = none) := by
  constructor
  · intro sc h
    simp [Svc.monitorEvent, h]
  · intro e h
    simp [Svc.monitorEvent, h]

/-- Witness for C4 at a concrete container and process whose Wait returns 0. -/
theorem C4_monitor_exact_event_witness :
    Svc.monitorEvent ⟨"c1", "/b", "running", [⟨"p2", 5, "running", .ok 0, none⟩]⟩
        ⟨"p2", 5, "running", .ok 0, none⟩ =
      some ⟨Svc.GetContainerProcessEventTopic "c1" "p2", "c1", "exit", "p2", 0⟩ :=
  (C4_monitor_exact_event _ _).1 0 rfl

/-- C7: the process spec StartProcess passes to the executor forces
NoNewPrivileges on and fixes the 80x80 console geometry, while the terminal
flag, args, env and cwd come from the request. -/
theorem C7_start_process_spec (r : Svc.StartProcessRequest) :
    (Svc.startProcessOptsOf r).procSpec.NoNewPrivileges = true ∧
    (Svc.startProcessOptsOf r).procSpec.ConsoleSize = ⟨80, 80⟩ ∧
    (Svc.startProcessOptsOf r).procSpec.Terminal = r.procConfig.Terminal ∧
    (Svc.startProcessOptsOf r).procSpec.Args = r.procConfig.Args ∧
    (Svc.startProcessOptsOf r).procSpec.Env = r.procConfig.Env ∧
    (Svc.startProcessOptsOf r).procSpec.Cwd = r.procConfig.Cwd ∧
    (Svc.startProcessOptsOf r).ID = r.procConfig.ID := by
  simp [Svc.startProcessOptsOf, Svc.startProcessSpec]

/-- C8: toGRPCContainer maps the four known internal statuses to the matching
wire values, leaves the wire status at its zero value for every other internal
status, and never fails (it is total and preserves ID and bundle path). -/
theorem C8_status_mapping (c : Svc.Container) :
    (c.status = "created" → (Svc.toGRPCContainer c).Status = .CREATED) ∧
    (c.status = "running" → (Svc.toGRPCContainer c).Status = .RUNNING) ∧
    (c.status = "stopped" → (Svc.toGRPCContainer c).Status = .STOPPED) ∧
    (c.status = "paused" → (Svc.toGRPCContainer c).Status = .PAUSED) ∧
    (c.status ≠ "created" → c.status ≠ "running" → c.status ≠ "stopped" →
      c.status ≠ "paused" →
      (Svc.toGRPCContainer c).Status = Svc.WireStatus.zero) ∧
    (Svc.toGRPCContainer c).ID = c.ID ∧
    (Svc.toGRPCContainer c).BundlePath = c.bundle := by
  refine ⟨?_, ?_, ?_, ?_, ?_, ?_, ?_⟩
  · intro h; simp [Svc.toGRPCContainer, h]
  · intro h; simp [Svc.toGRPCContainer, h]
  · intro h; simp [Svc.toGRPCContainer, h]
  · intro h; simp [Svc.toGRPCContainer, h]
  · intro h1 h2 h3 h4
    unfold Svc.toGRPCContainer
    split <;> simp_all
  · unfold Svc.toGRPCContainer
    split <;> rfl
  · unfold Svc.toGRPCContainer
    split <;> rfl

/-- Witness for C8 at a container whose internal status is deleted, a value
outside the mapping table: the wire status stays at the zero value. -/
theorem C8_status_mapping_witness :
    (Svc.toGRPCContainer ⟨"c", "/b", "deleted", []⟩).Status =
      Svc.WireStatus.zero :=
  (C8_status_mapping ⟨"c", "/b", "deleted", []⟩).2.2.2.2.1
    (by decide) (by decide) (by decide) (by decide)

/-- C10: ChainID runs on a faithful copy of its input (the slice it mutates is
the fresh copy, whose content equals the input, so the caller's slice is never
written) and answers the empty digest on an empty input; ChainIDs leaves
element 0 unchanged for every input and returns any input of length below two
entirely unchanged. -/
theorem C10_chain_id_properties (fromBytes : String → String) (l : List String) :
    Rootfs.goCopy (List.replicate l.length "") l = l ∧
    Rootfs.ChainID fromBytes [] = "" ∧
    (Rootfs.ChainIDs fromBytes l).head? = l.head? ∧
    (l.length < 2 → Rootfs.ChainIDs fromBytes l = l) := by
  refine ⟨?_, ?_, ?_, ?_⟩
  · simp [Rootfs.goCopy]
  · simp [Rootfs.ChainID, Rootfs.goCopy, Rootfs.ChainIDs]
  · match l with
    | [] => simp [Rootfs.ChainIDs]
    | [a] => simp [Rootfs.ChainIDs]
    | a :: b :: rest => simp [Rootfs.ChainIDs]
  · intro h
    match l with
    | [] => simp [Rootfs.ChainIDs]
    | [a] => simp [Rootfs.ChainIDs]
    | a :: b :: rest => exact absurd h (by simp)

/-- Witness for C10 at a one-element list with the identity digest function. -/
theorem C10_chain_id_properties_witness :
    Rootfs.ChainIDs (fun s => s) ["a"] = ["a"] :=
  (C10_chain_id_properties (fun s => s) ["a"]).2.2.2 (by decide)

/-- C5: service construction returns an error exactly when the initial
executor List call fails; during reaping of a Stopped or Deleted container,
every stored process gets its event (a Wait error is replaced by the
UnknownStatusCode sentinel in that event and aborts nothing), and recovery
runs to completion over every container list whose members all have at least
one process. -/
theorem C5_boot_error_only_from_list (lr : Except Svc.GoError (List Svc.Container))
    (c : Svc.Container) (p : Svc.Process)
    (hc : Svc.isDeadStatus c.status = true) (hp : p ∈ c.processes) :
    ((∃ e, Svc.new lr = .error e) ↔ (∃ e, lr = .error e)) ∧
    (Svc.containerRecoveryEvents c).length = c.processes.length ∧
    Svc.reapEvent c p ∈ Svc.containerRecoveryEvents c ∧
    (∀ e, p.wait = .error e →
      (Svc.reapEvent c p).statusCode = Svc.UnknownStatusCode) ∧
    (∀ ds : List Svc.Container, (∀ d ∈ ds, d.processes ≠ []) →
      ∃ r, Svc.recoverContainers ds = some r) := by
  refine ⟨?_, ?_, ?_, ?_, ?_⟩
  · cases lr <;> simp [Svc.new]
  · simp [Svc.containerRecoveryEvents, hc]
  · simp only [Svc.containerRecoveryEvents, hc, if_true]
    exact List.mem_map_of_mem _ hp
  · intro e he
    simp [Svc.reapEvent, Svc.waitStatusCode, he]
  · intro ds h
    induction ds with
    | nil => exact ⟨⟨[], []⟩, rfl⟩
    | cons d ds ih =>
      obtain ⟨r, hr⟩ := ih (fun d' hmem => h d' (List.mem_cons_of_mem _ hmem))
      have hd := h d (List.mem_cons_self _ _)
      match hps : d.processes with
      | [] => exact absurd hps hd
      | q :: qs =>
        refine ⟨⟨Svc.containerRecoveryEvents d ++ r.events,
                 Svc.containerRecoveryMonitors d ++ r.monitors⟩, ?_⟩
        simp [Svc.recoverContainers, hps, Svc.reorderProcesses, hr]

/-- Witness for C5 at a stopped container holding one process whose Wait
errs: its reap event carries the UnknownStatusCode sentinel. -/
theorem C5_boot_error_only_from_list_witness :
    (Svc.reapEvent ⟨"c", "/b", "stopped",
        [⟨"p", 7, "running", .error (.execFailure "gone"), none⟩]⟩
      ⟨"p", 7, "running", .error (.execFailure "gone"), none⟩).statusCode =
      Svc.UnknownStatusCode :=
  (C5_boot_error_only_from_list (.ok [])
      ⟨"c", "/b", "stopped", [⟨"p", 7, "running", .error (.execFailure "gone"), none⟩]⟩
      ⟨"p", 7, "running", .error (.execFailure "gone"), none⟩
      (by decide) (List.mem_singleton.mpr rfl)).2.2.2.1
    (.execFailure "gone") rfl

/-- C9: both Create (service.go:84) and boot recovery (service.go:36)
unconditionally index element 0 of a container's process sequence, so a
container with an empty sequence makes the indexing out of bounds (a panic),
while any container with at least one process is safe. -/
theorem C9_init_indexing (c : Svc.Container) (cs : List Svc.Container)
    (x : Svc.Executor) (r : Svc.CreateContainerRequest) :
    (c.processes = [] →
      Svc.reorderProcesses c.processes = none ∧
      Svc.recoverContainers (c :: cs) = none ∧
      c.processes.head? = none ∧
      (x.createRes r.ID ⟨r.BundlePath, r.Console, r.Stdin, r.Stdout, r.Stderr⟩
          = .ok c → Svc.create x r = .panic)) ∧
    (c.processes ≠ [] →
      (∃ l, Svc.reorderProcesses c.processes = some l) ∧
      ∃ p, c.processes.head? = some p) := by
  constructor
  · intro h
    refine ⟨?_, ?_, ?_, ?_⟩
    · simp [h, Svc.reorderProcesses]
    · simp [Svc.recoverContainers, h, Svc.reorderProcesses]
    · simp [h]
    · intro hcr
      simp [Svc.create, hcr, h]
  · intro h
    match hps : c.processes with
    | [] => exact absurd hps h
    | q :: qs => exact ⟨⟨qs ++ [q], rfl⟩, ⟨q, rfl⟩⟩

/-- Witness for C9: recovering a list holding one zero-process container
panics (modelled by none). -/
theorem C9_init_indexing_witness :
    Svc.recoverContainers [⟨"c0", "/b", "created", []⟩] = none :=
  ((C9_init_indexing ⟨"c0", "/b", "created", []⟩ [] simpleExec
      ⟨"c0", "/b", "", "", "", ""⟩).1 rfl).2.1

/-- C1 evaluated at the failing input: boot recovery of stopped container c2
with stored processes [init, p3] publishes the init process's exit event
FIRST, then p3's — service.go:37 iterates the stored field c.processes while
the reordered slice built at line 36 (per the comment, to generate the init
event last) is never read. -/
theorem C1_recovery_emits_init_first :
    (Svc.containerRecoveryEvents
        ⟨"c2", "/b", "stopped",
          [⟨"init", 1, "stopped", .ok 0, none⟩,
           ⟨"p3", 2, "running", .ok 9, none⟩]⟩).map
      (fun e => e.pid) = ["init", "p3"] := by
  rfl

/-- C2 counterexample: a process can get two exit events across service
lifetimes.  Lifetime one: process p of running container c is watched by a
Process Monitor and its successful Wait publishes one event.  Lifetime two:
the service restarts, the executor now reports c as stopped with p already
stopped, and recovery unconditionally publishes a second event for p
(service.go:38-55 never checks whether an exit was already reported). -/
theorem C2_counterexample :
    (((Svc.monitorEvent ⟨"c", "/b", "running",
            [⟨"p", 7, "running", .ok 0, none⟩]⟩
          ⟨"p", 7, "running", .ok 0, none⟩).toList ++
        Svc.containerRecoveryEvents ⟨"c", "/b", "stopped",
          [⟨"p", 7, "stopped", .ok 0, none⟩]⟩).filter
      (fun e => e.pid == "p")).length = 2 := by
  rfl

/-- Helper for the amended C2: on a list of processes with pairwise distinct
IDs, at most one reap event carries any given process ID. -/
theorem reap_filter_length_le_one (c : Svc.Container) (pid : String)
    (ps : List Svc.Process) (h : (ps.map Svc.Process.ID).Nodup) :
    ((ps.map (Svc.reapEvent c)).filter (fun e => e.pid == pid)).length ≤ 1 := by
  induction ps with
  | nil => simp
  | cons q qs ih =>
    rw [List.map_cons, List.nodup_cons] at h
    rw [List.map_cons, List.filter_cons]
    by_cases hq : ((Svc.reapEvent c q).pid == pid) = true
    · have hempty : (qs.map (Svc.reapEvent c)).filter (fun e => e.pid == pid) = [] := by
        rw [List.filter_eq_nil_iff]
        intro e he
        obtain ⟨q', hq', rfl⟩ := List.mem_map.mp he
        intro hcon
        apply h.1
        have h1 : q.ID = pid := by simpa [Svc.reapEvent] using hq
        have h2 : q'.ID = pid := by simpa [Svc.reapEvent] using hcon
        rw [List.mem_map]
        exact ⟨q', hq', by rw [h2, h1]⟩
      simp [hq, hempty]
    · simp only [hq, if_false, Bool.false_eq_true]
      exact ih h.2


/-- C2 amended: each emission path alone publishes at most one exit event per
process — a Process Monitor publishes at most one event for its watched
process, and one recovery pass over a container whose stored processes have
pairwise distinct IDs publishes at most one event per process ID — but
recovery re-publishes an event for every process of a Stopped or Deleted
container even when that process's exit was already reported in a previous
service lifetime (see the counterexample). -/
theorem C2_amended_per_path_at_most_one (c : Svc.Container) (p : Svc.Process)
    (pid : String) (h : (c.processes.map Svc.Process.ID).Nodup) :
    (Svc.monitorEvent c p).toList.length ≤ 1 ∧
    ((Svc.containerRecoveryEvents c).filter (fun e => e.pid == pid)).length ≤ 1 := by
  constructor
  · cases hw : p.wait <;> simp [Svc.monitorEvent, hw]
  · unfold Svc.containerRecoveryEvents
    split
    · exact reap_filter_length_le_one c pid c.processes h
    · simp

/-- Witness for the amended C2 at a concrete stopped container with one
process. -/
theorem C2_amended_per_path_at_most_one_witness :
    ((Svc.containerRecoveryEvents
        ⟨"c", "/b", "stopped", [⟨"p", 7, "stopped", .ok 0, none⟩]⟩).filter
      (fun e => e.pid == "p")).length ≤ 1 :=
  (C2_amended_per_path_at_most_one
      ⟨"c", "/b", "stopped", [⟨"p", 7, "stopped", .ok 0, none⟩]⟩
      ⟨"q", 1, "running", .ok 0, none⟩ "p" (by simp)).2

/-- C3 evaluated at the failing input: against executor state where container
c exists but has no process named nope, GetProcess fails with the shared
ErrProcessNotFound sentinel (service.go:200) while SignalProcess fails with
the ad hoc fmt.Errorf value of service.go:214, and the two error values
differ; DeleteProcess (service.go:224) performs no process lookup at all, so
its outcome on the nonexistent ID is whatever the executor answers (here
success). -/
theorem C3_not_found_errors_diverge :
    (Svc.getProcess simpleExec "c" "nope").2 =
        some Svc.GoError.errProcessNotFound ∧
    (Svc.signalProcess simpleExec "c" "nope").2 =
        some (Svc.GoError.errorf "Make me a constant! Process not foumd!") ∧
    (Svc.deleteProcess simpleExec "c" "nope").2 = none ∧
    Svc.GoError.errorf "Make me a constant! Process not foumd!" ≠
      Svc.GoError.errProcessNotFound := by
  refine ⟨rfl, rfl, rfl, by decide⟩

/-- C6 counterexample: Pause is a payload-less operation, yet when the
container load fails it returns a nil payload alongside the error
(service.go:134 returns nil, err), not the empty payload the claim
requires. -/
theorem C6_counterexample_pause_nil :
    Svc.pause loadFailExec "c" =
      (none, some (Svc.GoError.execFailure "boom")) := by
  rfl

/-- C6 amended: Delete, Update and DeleteProcess always carry the non-nil
empty payload, and SignalProcess does so on load failure and on signal
delivery; but Pause, Resume and Start return a nil payload alongside a
container-load error (and the empty payload alongside an executor-operation
error), and SignalProcess returns a nil payload alongside the
process-not-found error.  Every failing payload-carrying operation (Create,
List, Get, GetProcess, StartProcess, ListProcesses) returns a nil payload
alongside its error. -/
theorem C6_amended_error_payload_shapes (x : Svc.Executor) (cid pid : String)
    (r : Svc.CreateContainerRequest) (rp : Svc.StartProcessRequest) :
    ((Svc.delete x cid).1 = some ()) ∧
    (Svc.update x cid = (some (), none)) ∧
    ((Svc.deleteProcess x cid pid).1 = some ()) ∧
    (∀ e, x.loadRes cid = .error e →
      Svc.pause x cid = (none, some e) ∧
      Svc.resume x cid = (none, some e) ∧
      Svc.start x cid = (none, some e)) ∧
    (∀ c, x.loadRes cid = .ok c →
      (Svc.pause x cid).1 = some () ∧
      (Svc.resume x cid).1 = some () ∧
      (Svc.start x cid).1 = some ()) ∧
    (∀ e, x.loadRes cid = .error e →
      Svc.signalProcess x cid pid = (some (), some e)) ∧
    (∀ c, x.loadRes cid = .ok c → c.GetProcess pid = none →
      Svc.signalProcess x cid pid =
        (none, some (.errorf "Make me a constant! Process not foumd!"))) ∧
    (∀ c p, x.loadRes cid = .ok c → c.GetProcess pid = some p →
      (Svc.signalProcess x cid pid).1 = some ()) ∧
    ((Svc.listContainers x).2 ≠ none → (Svc.listContainers x).1 = none) ∧
    ((Svc.get x cid).2 ≠ none → (Svc.get x cid).1 = none) ∧
    ((Svc.getProcess x cid pid).2 ≠ none → (Svc.getProcess x cid pid).1 = none) ∧
    ((Svc.startProcess x rp).2 ≠ none → (Svc.startProcess x rp).1 = none) ∧
    ((Svc.listProcesses x cid).2 ≠ none → (Svc.listProcesses x cid).1 = none) ∧
    (∀ e, x.createRes r.ID ⟨r.BundlePath, r.Console, r.Stdin, r.Stdout, r.Stderr⟩
        = .error e → Svc.create x r = .ret none (some e)) := by
  refine ⟨?_, rfl, ?_, ?_, ?_, ?_, ?_, ?_, ?_, ?_, ?_, ?_, ?_, ?_⟩
  · cases hl : x.loadRes cid with
    | error e => simp [Svc.delete, hl]
    | ok c => cases hd : x.deleteRes c <;> simp [Svc.delete, hl, hd]
  · cases hl : x.loadRes cid with
    | error e => simp [Svc.deleteProcess, hl]
    | ok c => cases hd : x.deleteProcessRes c pid <;> simp [Svc.deleteProcess, hl, hd]
  · intro e hl
    refine ⟨?_, ?_, ?_⟩ <;> simp [Svc.pause, Svc.resume, Svc.start, hl]
  · intro c hl
    refine ⟨?_, ?_, ?_⟩ <;> simp [Svc.pause, Svc.resume, Svc.start, hl]
  · intro e hl
    simp [Svc.signalProcess, hl]
  · intro c hl hg
    simp [Svc.signalProcess, hl, hg]
  · intro c p hl hg
    simp [Svc.signalProcess, hl, hg]
  · intro hE
    cases hl : x.listRes with
    | error e => simp [Svc.listContainers, hl]
    | ok cs => simp [Svc.listContainers, hl] at hE
  · intro hE
    cases hl : x.loadRes cid with
    | error e => simp [Svc.get, hl]
    | ok c => simp [Svc.get, hl] at hE
  · intro hE
    cases hl : x.loadRes cid with
    | error e => simp [Svc.getProcess, hl]
    | ok c =>
      cases hg : c.GetProcess pid with
      | none => simp [Svc.getProcess, hl, hg]
      | some p => simp [Svc.getProcess, hl, hg] at hE
  · intro hE
    cases hl : x.loadRes rp.ContainerID with
    | error e => simp [Svc.startProcess, hl]
    | ok c =>
      cases hs : x.startProcessRes c (Svc.startProcessOptsOf rp) with
      | error e => simp [Svc.startProcess, hl, hs]
      | ok p => simp [Svc.startProcess, hl, hs] at hE
  · intro hE
    cases hl : x.loadRes cid with
    | error e => simp [Svc.listProcesses, hl]
    | ok c => simp [Svc.listProcesses, hl] at hE
  · intro e hc
    simp [Svc.create, hc]

/-- Witness for the amended C6: SignalProcess against a failing container
load keeps the non-nil empty payload alongside the surfaced error. -/
theorem C6_amended_error_payload_shapes_witness :
    Svc.signalProcess loadFailExec "c" "p" =
      (some (), some (Svc.GoError.execFailure "boom")) :=
  (C6_amended_error_payload_shapes loadFailExec "c" "p"
      ⟨"c", "/b", "", "", "", ""⟩
      ⟨"c", ⟨"p", false, [], [], "/"⟩, "", "", "", ""⟩).2.2.2.2.2.1
    (Svc.GoError.execFailure "boom") rfl
